import Mathlib

/-!
Shallow embedding of the lint orchestration engine of demisto-sdk
(commands/lint and commands/lint/lint_refactor), covering:

* the result classification enum (`lint_constants.LinterResult`),
* the local-process run classification (`BaseLinter.run`),
* the docker retry loop (`DockerBaseLinter.run`),
* the message splitter (`BaseLinter.split_warnings_errors`),
* `LintManager.__init__` fail-fast behaviour,
* `coverage_report_editor`,
* the XSOAR linter support-tier checker map and its disable wiring,
* the pylint plugin scoped staging (`_pylint_plugin`),
* the derived docker test image tag (`DockerBaseLinter._docker_image_create`),
  including a full executable MD5 (RFC 1321) standing for `hashlib.md5`.

Machine integers are modelled as `Nat` with explicit `% 2 ^ 32` masking,
fallible code returns `Except`, and mutable state is passed explicitly.
-/

/-- `demisto_sdk/commands/lint/lint_refactor/lint_constants.py`, class
`LinterResult(Enum)`: RERUN = 0, FAIL = 1, SUCCESS = 2, WARNING = 3,
FAILED_CREATING_DOCKER_IMAGE = 4. -/
inductive LinterResult where
  | RERUN
  | FAIL
  | SUCCESS
  | WARNING
  | FAILED_CREATING_DOCKER_IMAGE
deriving DecidableEq, Repr

/-- `BaseLinter.run` classification
(`lint/linters/abstract_linters/base_linter.py` lines 53-73 and the
refactor twin): given captured `stdout`, `stderr` and the process exit
code from `run_command_os`, the code does
`if stderr or exit_code: return FAIL, (stderr if stderr else stdout)`
and otherwise returns SUCCESS with empty output.  Python truthiness of a string is
non-emptiness, of an int is non-zeroness. -/
def baseLinterRunClassify (stdout stderr : String) (exit_code : Int) :
    LinterResult × String :=
  if stderr ≠ "" ∨ exit_code ≠ 0 then
    if stderr ≠ "" then (LinterResult.FAIL, stderr)
    else (LinterResult.FAIL, stdout)
  else (LinterResult.SUCCESS, "")

/-- One trial of the retry loop in `DockerBaseLinter.run`
(`lint/linters/abstract_linters/docker_base_linter.py` lines 131-153, and
lines 126-147 of the refactor twin).  The loop body is
`linter_result, output = self.run_on_image(...)` then
`if linter_result in [FAIL, SUCCESS]: break` then
`if linter_result == RERUN and trial == 1: linter_result, output = FAIL, output`.
Returns the state after the body together with the break flag. -/
def dockerRunTrial (attempt : Nat → LinterResult × String) (trial : Nat) :
    (LinterResult × String) × Bool :=
  let r := attempt trial
  if r.1 = LinterResult.FAIL ∨ r.1 = LinterResult.SUCCESS then (r, true)
  else if r.1 = LinterResult.RERUN ∧ trial = 1 then ((LinterResult.FAIL, r.2), false)
  else (r, false)

/-- The `for trial in range(2)` retry loop of `DockerBaseLinter.run`, run
after a successful `_docker_image_create`; `attempt trial` is the
`(linter_result, output)` pair produced by the call to `run_on_image` in
trial `trial`.  The resulting pair is what `run` passes on to
`add_non_successful_package` for the package/linter pair. -/
def dockerRunLoop (attempt : Nat → LinterResult × String) : LinterResult × String :=
  let s0 := dockerRunTrial attempt 0
  if s0.2 then s0.1 else (dockerRunTrial attempt 1).1

/-- `lint_constants.py`, `@dataclass LintFlags`: one disable flag per
linter plus the coverage switch. -/
structure LintFlags where
  disable_flake8 : Bool
  disable_bandit : Bool
  disable_mypy : Bool
  disable_pylint : Bool
  disable_pytest : Bool
  disable_vulture : Bool
  disable_xsoar_linter : Bool
  disable_pwsh_analyze : Bool
  disable_pwsh_test : Bool
  no_coverage : Bool
deriving DecidableEq, Repr

/-- The slice of `LintGlobalFacts` that the embedded fragments read:
`content_repo` (`None` when no enclosing content repository was found,
here the repository is represented by its working directory) and
`test_modules` (names of the shared support modules; `has_lint_files`
only tests its truthiness). -/
structure LintGlobalFactsModel where
  content_repo : Option String
  test_modules : List String
deriving DecidableEq, Repr

/-- Steps of `LintManager.__init__` that touch package data, used to
record which work happened before an exception was raised. -/
inductive InitStep where
  | buildGlobalFacts
  | getPackages
deriving DecidableEq, Repr

/-- `LintManager.__init__` (`lint/lint_manager.py` lines 50-90, refactor
twin lines 105-130): after computing
`git_only = git_only or (not all_packs and not input_dirs)` and building
the global facts, the constructor raises
`DemistoException` (message: Could not find content repository and -a or
-g have been supplied.)
when `not self.lint_global_facts.content_repo and (all_packs or git_only)`,
and only otherwise goes on to `self._get_packages(...)`.  The package
resolution itself is abstracted as the parameter `getPackages`; the
returned trace records which steps ran, in order. -/
def lintManagerInit (inputDirs : List String) (gitOnly allPacks : Bool)
    (globalFacts : LintGlobalFactsModel)
    (getPackages : Option String → List String) :
    Except String (List String) × List InitStep :=
  let gitOnly := gitOnly || (!allPacks && inputDirs.isEmpty)
  let trace := [InitStep.buildGlobalFacts]
  if globalFacts.content_repo.isNone && (allPacks || gitOnly) then
    (Except.error "Could not find content repository and -a or -g have been supplied.",
     trace)
  else
    (Except.ok (getPackages globalFacts.content_repo),
     trace ++ [InitStep.getPackages])

/-- `coverage_report_editor` (`lint/coverage_utils.py` lines 12-34,
refactor `lint_refactor/coverage_utils.py` lines 6-28).  The sqlite
`file` table of the `.coverage` database is embedded as a list of
`(id, path)` rows.  The code reads `index = SELECT count(*) FROM file`;
when `index == 1` it executes
`UPDATE file SET path = ? WHERE id = ?` with `(code_file_absolute_path, 1)`
and keeps the file, otherwise it only logs and afterwards runs
`os.remove(coverage_file)`.  `none` models the removed file, `some rows`
the surviving database. -/
def coverage_report_editor (db : List (Nat × String))
    (code_file_absolute_path : String) : Option (List (Nat × String)) :=
  let index := db.length
  if index = 1 then
    some (db.map fun row =>
      if row.1 = 1 then (row.1, code_file_absolute_path) else row)
  else
    none

/-- `XSOARLinter.SUPPORT_LEVEL_TO_CHECK_DICT`
(`lint_refactor/linters/xsoar_linter.py` lines 29-37), verbatim. -/
def SUPPORT_LEVEL_TO_CHECK_DICT : List (String × String) :=
  [("base", "base_checker"),
   ("community", "base_checker,community_level_checker"),
   ("partner", "base_checker,community_level_checker,partner_level_checker"),
   ("certified partner",
    "base_checker,community_level_checker,partner_level_checker,certified_partner_level_checker"),
   ("xsoar",
    "base_checker,community_level_checker,partner_level_checker,certified_partner_level_checker,xsoar_level_checker")]

/-- Helper for `pySplitChar`: the characters seen since the last
separator are accumulated in reverse in `acc`. -/
def pySplitCharAux (sep : Char) : List Char → List Char → List String
  | [], acc => [String.mk acc.reverse]
  | c :: rest, acc =>
      if c = sep then String.mk acc.reverse :: pySplitCharAux sep rest []
      else pySplitCharAux sep rest (c :: acc)

/-- Python `str.split(sep)` for a one-character separator: splits at
every occurrence, keeping empty pieces (splitting the empty string
yields one empty piece). -/
def pySplitChar (sep : Char) (s : String) : List String :=
  pySplitCharAux sep s.data []

/-- The checker list enabled for a support level, as computed inside
`XSOARLinter.build_linter_command` (lines 131-170):
`checkers = self.SUPPORT_LEVEL_TO_CHECK_DICT.get(support_level)` and
`support = checkers.split(comma) if checkers else []`. -/
def checkersOfSupportLevel (support_level : String) : List String :=
  match SUPPORT_LEVEL_TO_CHECK_DICT.lookup support_level with
  | some checkers => pySplitChar ',' checkers
  | none => []

/-- The rule message identifiers enabled by a checker list in
`XSOARLinter.build_linter_command`: for each enabled checker the keys of
`check_to_xsoar_msg.get(checker, {})` are appended to `message_enable`.
The message tables (`base_msg`, `community_msg`, ...) live in
`lint/resources/pylint_plugins`, outside the embedded sources, so the
table is a parameter `msgMap`. -/
def messageEnable (msgMap : String → List String) (checkers : List String) :
    List String :=
  checkers.flatMap msgMap

/-- The consecutive support tiers, lower before higher, in the order of
`SUPPORT_LEVEL_TO_CHECK_DICT`. -/
def consecutiveSupportTiers : List (String × String) :=
  [("base", "community"), ("community", "partner"),
   ("partner", "certified partner"), ("certified partner", "xsoar")]

/-- `XSOARLinter.__init__` (`lint_refactor/linters/xsoar_linter.py` lines
39-49) forwards `lint_flags.disable_flake8` as the `disable_flag`
argument of `PythonBaseLinter.__init__`. -/
def xsoarLinterDisableFlag (lint_flags : LintFlags) : Bool :=
  lint_flags.disable_flake8

/-- `demisto_sdk/commands/common/constants.py` `TYPE_PYTHON`. -/
def TYPE_PYTHON : String := "python"

/-- `BaseLinter.has_lint_files`
(`lint_refactor/linters/abstract_linters/base_linter.py`):
`True if self.lint_global_facts.test_modules else False`. -/
def hasLintFiles (globalFacts : LintGlobalFactsModel) : Bool :=
  !globalFacts.test_modules.isEmpty

/-- `XSOARLinter.should_run`: `has_lint_files() and super().should_run()`,
where `PythonBaseLinter.should_run` is
`is_expected_package(TYPE_PYTHON) and super().should_run()` and
`BaseLinter.should_run` is `not self.disable_flag`, the flag stored for
the XSOAR linter being `lint_flags.disable_flake8`. -/
def xsoarShouldRun (lint_flags : LintFlags) (globalFacts : LintGlobalFactsModel)
    (script_type : String) : Bool :=
  hasLintFiles globalFacts &&
    ((script_type == TYPE_PYTHON) && !(xsoarLinterDisableFlag lint_flags))

/-- `@dataclass FailedImageCreation` from `lint_constants.py`. -/
structure FailedImageCreation where
  image : String
  errors : String
deriving DecidableEq, Repr

/-- The Python `KeyError` raised by indexing a dict with a missing key. -/
inductive DictError where
  | keyError
deriving DecidableEq, Repr

/-- Replacement of the value stored under an existing key of a dict that
is embedded as an association list
(`DockerBaseLinter.FAILED_IMAGE_CREATIONS[name] = failed_images`). -/
def setAssoc (m : List (String × List FailedImageCreation)) (key : String)
    (value : List FailedImageCreation) :
    List (String × List FailedImageCreation) :=
  m.map fun kv => if kv.1 = key then (kv.1, value) else kv

/-- The image-creation failure branch of `DockerBaseLinter.run`
(`lint/linters/abstract_linters/docker_base_linter.py` lines 148-152,
refactor twin lines 142-146):
`failed_images = DockerBaseLinter.FAILED_IMAGE_CREATIONS[package.name]`
(plain indexing, raising `KeyError` when the key is absent), then
`failed_images.append(FailedImageCreation(test_image, errors))` and the
write-back into the class map. -/
def recordFailedImageCreation (m : List (String × List FailedImageCreation))
    (package_name test_image errors : String) :
    Except DictError (List (String × List FailedImageCreation)) :=
  match m.lookup package_name with
  | none => Except.error DictError.keyError
  | some failed_images =>
      Except.ok (setAssoc m package_name
        (failed_images ++ [FailedImageCreation.mk test_image errors]))

/-!
`_pylint_plugin` (`lint_refactor/linters/xsoar_linter.py` lines 173-193):
a generator-based context manager whose `try` block symlinks every
eligible plugin file into the package directory and yields, and whose
`finally` block unlinks from the package directory every plugin file
name that `os.path.lexists` there.  The package directory is embedded as
the list of its entry names; the plugin files eligible after the
`is_file`/`__pycache__`/`.pyc` filter are the parameter `plugins`; the
managed body is a state transformer that also reports whether it raised
(`false` = an exception propagated). -/

/-- The staging loop: `os.symlink(file, package_path / file.name)` for
each plugin file, in order.  `os.symlink` raises `FileExistsError` when
the destination already exists, aborting the loop; the returned flag is
`false` in that case and the returned directory reflects the links made
before the failure. -/
def stagePluginFiles : List String → List String → Bool × List String
  | [], fs => (true, fs)
  | p :: rest, fs =>
      if p ∈ fs then (false, fs)
      else stagePluginFiles rest (p :: fs)

/-- The `finally` loop: for every plugin file name, unlink the entry of
that name from the package directory if it exists there. -/
def cleanupPluginFiles (plugins fs : List String) : List String :=
  fs.filter fun e => !plugins.contains e

/-- The whole context manager around a body: stage, run the body when
staging succeeded, always clean up; the flag is `false` when an
exception propagated out (from staging or from the body). -/
def pylintPluginScope (plugins : List String)
    (body : List String → Bool × List String) (fs : List String) :
    Bool × List String :=
  let staged := stagePluginFiles plugins fs
  if staged.1 then
    let ran := body staged.2
    (ran.1, cleanupPluginFiles plugins ran.2)
  else
    (false, cleanupPluginFiles plugins staged.2)

/-!
`BaseLinter.split_warnings_errors`
(`lint_refactor/linters/abstract_linters/base_linter.py` lines 85-119 and
the twin in `lint/linters/abstract_linters/base_linter.py`): splits
`output.split(newline)` into warnings, errors and other messages.  The
tests are, in Python evaluation order,
`(msg.startswith(W) and msg[1].isdigit()) or (W: in msg) or (W90 in msg)`
and then
`(msg.startswith(E) and msg[1].isdigit()) or (E: in msg) or (E90 in msg)`;
`msg[1]` raises `IndexError` when `len(msg) < 2`. -/

/-- The Python `IndexError` raised by `msg[1]` on a short string. -/
inductive SplitError where
  | indexError
deriving DecidableEq, Repr

/-- Substring containment, Python `pat in s` for strings. -/
def charsContain (pat : List Char) : List Char → Bool
  | [] => pat.isEmpty
  | c :: rest => pat.isPrefixOf (c :: rest) || charsContain pat rest

/-- Python `pat in s` on strings. -/
def strContains (s pat : String) : Bool :=
  charsContain pat.data s.data

/-- Python `msg.startswith(c)` for a one-character prefix: the first
character equals `c`. -/
def pyStartsWith (c : Char) (msg : String) : Bool :=
  match msg.data with
  | [] => false
  | c0 :: _ => c0 = c

/-- `(msg.startswith(prefixChar) and msg[1].isdigit()) or (joined in msg)
or (joined90 in msg)` with the possibly failing indexing `msg[1]` made
explicit:
an `IndexError` escapes whenever the first conjunct reaches `msg[1]` on
a string of length below 2. -/
def severityTest (prefixChar : Char) (joined joined90 : String)
    (msg : String) : Except SplitError Bool := do
  let first ←
    if pyStartsWith prefixChar msg then
      if msg.data.length < 2 then Except.error SplitError.indexError
      else Except.ok (msg.data.getD 1 ' ').isDigit
    else Except.ok false
  if first then Except.ok true
  else Except.ok (strContains msg joined || strContains msg joined90)

/-- Classification of one line of output: `0` = warning, `1` = error,
`2` = other, following the `if/elif/else` of `split_warnings_errors`. -/
def classifyLine (msg : String) : Except SplitError Nat := do
  let w ← severityTest 'W' "W:" "W90" msg
  if w then Except.ok 0
  else
    let e ← severityTest 'E' "E:" "E90" msg
    if e then Except.ok 1
    else Except.ok 2

/-- The loop over `output.split(newline)`, accumulating the three lists in
traversal order; the first `IndexError` aborts the whole call. -/
def splitLines : List String →
    Except SplitError (List String × List String × List String)
  | [] => Except.ok ([], [], [])
  | msg :: rest => do
      let c ← classifyLine msg
      let (errors, warnings, others) ← splitLines rest
      if c = 0 then Except.ok (errors, msg :: warnings, others)
      else if c = 1 then Except.ok (msg :: errors, warnings, others)
      else Except.ok (errors, warnings, msg :: others)

/-- `BaseLinter.split_warnings_errors(output)`: returns
`(error_list, warnings_list, other_msg_list)` or raises `IndexError`. -/
def split_warnings_errors (output : String) :
    Except SplitError (List String × List String × List String) :=
  splitLines (pySplitChar '\n' output)

/-!
Executable MD5 (RFC 1321), the meaning of Python
`hashlib.md5(dockerfile.encode("utf-8")).hexdigest()` used by
`DockerBaseLinter._docker_image_create` to derive the test image tag.
Words are `Nat` masked to 32 bits; bytes are `Nat` below 256. -/

/-- `2 ^ 32`. -/
def MOD32 : Nat := 4294967296

/-- 32-bit addition. -/
def add32 (a b : Nat) : Nat := (a + b) % MOD32

/-- 32-bit complement. -/
def not32 (x : Nat) : Nat := Nat.xor (x % MOD32) 4294967295

/-- 32-bit left rotation by `s` (callers pass `1 ≤ s ≤ 31` and a masked
`x`). -/
def rotl32 (x s : Nat) : Nat :=
  ((x <<< s) ||| (x >>> (32 - s))) % MOD32

/-- MD5 auxiliary function F. -/
def md5F (x y z : Nat) : Nat := Nat.lor (Nat.land x y) (Nat.land (not32 x) z)

/-- MD5 auxiliary function G. -/
def md5G (x y z : Nat) : Nat := Nat.lor (Nat.land x z) (Nat.land y (not32 z))

/-- MD5 auxiliary function H. -/
def md5H (x y z : Nat) : Nat := Nat.xor x (Nat.xor y z)

/-- MD5 auxiliary function I. -/
def md5I (x y z : Nat) : Nat := Nat.xor y (Nat.lor x (not32 z))

/-- The 64 MD5 sine constants `T[i] = floor(2^32 * abs(sin(i + 1)))`. -/
def md5K : List Nat :=
  [0xd76aa478, 0xe8c7b756, 0x242070db, 0xc1bdceee,
   0xf57c0faf, 0x4787c62a, 0xa8304613, 0xfd469501,
   0x698098d8, 0x8b44f7af, 0xffff5bb1, 0x895cd7be,
   0x6b901122, 0xfd987193, 0xa679438e, 0x49b40821,
   0xf61e2562, 0xc040b340, 0x265e5a51, 0xe9b6c7aa,
   0xd62f105d, 0x02441453, 0xd8a1e681, 0xe7d3fbc8,
   0x21e1cde6, 0xc33707d6, 0xf4d50d87, 0x455a14ed,
   0xa9e3e905, 0xfcefa3f8, 0x676f02d9, 0x8d2a4c8a,
   0xfffa3942, 0x8771f681, 0x6d9d6122, 0xfde5380c,
   0xa4beea44, 0x4bdecfa9, 0xf6bb4b60, 0xbebfbc70,
   0x289b7ec6, 0xeaa127fa, 0xd4ef3085, 0x04881d05,
   0xd9d4d039, 0xe6db99e5, 0x1fa27cf8, 0xc4ac5665,
   0xf4292244, 0x432aff97, 0xab9423a7, 0xfc93a039,
   0x655b59c3, 0x8f0ccc92, 0xffeff47d, 0x85845dd1,
   0x6fa87e4f, 0xfe2ce6e0, 0xa3014314, 0x4e0811a1,
   0xf7537e82, 0xbd3af235, 0x2ad7d2bb, 0xeb86d391]

/-- The 64 MD5 per-round left-rotation amounts. -/
def md5S : List Nat :=
  [7, 12, 17, 22, 7, 12, 17, 22, 7, 12, 17, 22, 7, 12, 17, 22,
   5, 9, 14, 20, 5, 9, 14, 20, 5, 9, 14, 20, 5, 9, 14, 20,
   4, 11, 16, 23, 4, 11, 16, 23, 4, 11, 16, 23, 4, 11, 16, 23,
   6, 10, 15, 21, 6, 10, 15, 21, 6, 10, 15, 21, 6, 10, 15, 21]

/-- Group a byte list into quadruples (input length is a multiple of 4
after padding; a ragged tail is kept as-is and cannot occur there). -/
def chunk4 : List Nat → List (List Nat)
  | b0 :: b1 :: b2 :: b3 :: rest => [b0, b1, b2, b3] :: chunk4 rest
  | [] => []
  | l => [l]

/-- Group a word list into 16-word blocks (input length is a multiple of
16 after padding; a ragged tail is kept as-is and cannot occur there). -/
def chunk16 : List Nat → List (List Nat)
  | w0 :: w1 :: w2 :: w3 :: w4 :: w5 :: w6 :: w7 ::
    w8 :: w9 :: w10 :: w11 :: w12 :: w13 :: w14 :: w15 :: rest =>
      [w0, w1, w2, w3, w4, w5, w6, w7,
       w8, w9, w10, w11, w12, w13, w14, w15] :: chunk16 rest
  | [] => []
  | l => [l]

/-- A 32-bit word as four little-endian bytes. -/
def toBytesLE4 (n : Nat) : List Nat :=
  [n % 256, n / 256 % 256, n / 65536 % 256, n / 16777216 % 256]

/-- A 64-bit length as eight little-endian bytes. -/
def toBytesLE8 (n : Nat) : List Nat :=
  [n % 256, n / 2 ^ 8 % 256, n / 2 ^ 16 % 256, n / 2 ^ 24 % 256,
   n / 2 ^ 32 % 256, n / 2 ^ 40 % 256, n / 2 ^ 48 % 256, n / 2 ^ 56 % 256]

/-- MD5 padding: append `0x80`, zero bytes up to 56 mod 64, then the
message bit length as a 64-bit little-endian quantity. -/
def md5Pad (msg : List Nat) : List Nat :=
  msg ++ [0x80] ++ List.replicate ((119 - msg.length % 64) % 64) 0
      ++ toBytesLE8 (8 * msg.length % 2 ^ 64)

/-- Four little-endian bytes as one word. -/
def wordOfBytes (b : List Nat) : Nat :=
  b.getD 0 0 + 256 * (b.getD 1 0 + 256 * (b.getD 2 0 + 256 * b.getD 3 0))

/-- One MD5 round `i` (0-63) on state `(a, b, c, d)` over the 16-word
block `M`. -/
def md5Round (M : List Nat) (st : Nat × Nat × Nat × Nat) (i : Nat) :
    Nat × Nat × Nat × Nat :=
  let (a, b, c, d) := st
  let f :=
    if i < 16 then md5F b c d
    else if i < 32 then md5G b c d
    else if i < 48 then md5H b c d
    else md5I b c d
  let g :=
    if i < 16 then i
    else if i < 32 then (5 * i + 1) % 16
    else if i < 48 then (3 * i + 5) % 16
    else 7 * i % 16
  let x := add32 (add32 a f) (add32 (md5K.getD i 0) (M.getD g 0))
  (d, add32 b (rotl32 x (md5S.getD i 0)), b, c)

/-- Processing of one 64-byte block: 64 rounds, then the feed-forward
addition of the incoming state. -/
def md5Block (st : Nat × Nat × Nat × Nat) (M : List Nat) :
    Nat × Nat × Nat × Nat :=
  let r := (List.range 64).foldl (md5Round M) st
  (add32 st.1 r.1, add32 st.2.1 r.2.1, add32 st.2.2.1 r.2.2.1,
   add32 st.2.2.2 r.2.2.2)

/-- The 16-byte MD5 digest of a byte string. -/
def md5Digest (msg : List Nat) : List Nat :=
  let words := (chunk4 (md5Pad msg)).map wordOfBytes
  let st := (chunk16 words).foldl md5Block
    (0x67452301, 0xefcdab89, 0x98badcfe, 0x10325476)
  toBytesLE4 st.1 ++ toBytesLE4 st.2.1 ++ toBytesLE4 st.2.2.1
    ++ toBytesLE4 st.2.2.2

/-- UTF-8 encoding of one character, Python `str.encode("utf-8")`
per scalar value. -/
def utf8Char (c : Char) : List Nat :=
  let n := c.toNat
  if n < 128 then [n]
  else if n < 2048 then [192 ||| (n >>> 6), 128 ||| (n &&& 63)]
  else if n < 65536 then
    [224 ||| (n >>> 12), 128 ||| ((n >>> 6) &&& 63), 128 ||| (n &&& 63)]
  else
    [240 ||| (n >>> 18), 128 ||| ((n >>> 12) &&& 63),
     128 ||| ((n >>> 6) &&& 63), 128 ||| (n &&& 63)]

/-- UTF-8 encoding of a string as a byte list. -/
def strUtf8 (s : String) : List Nat :=
  s.data.flatMap utf8Char

/-- Lowercase hexadecimal digit. -/
def hexDigitChar (n : Nat) : Char :=
  if n < 10 then Char.ofNat (48 + n) else Char.ofNat (87 + n)

/-- A byte as two lowercase hexadecimal characters. -/
def byteToHex (b : Nat) : List Char :=
  [hexDigitChar (b / 16), hexDigitChar (b % 16)]

/-- Python `hashlib.md5(s.encode("utf-8")).hexdigest()`. -/
def md5Hex (s : String) : String :=
  String.mk ((md5Digest (strUtf8 s)).flatMap byteToHex)

/-- Modelled from the spec: the Jinja2 template
`demisto_sdk/commands/lint/templates/dockerfile.jinja2` is not among the
provided sources; per the spec, `_docker_image_create` renders a build
description from it, parameterized by the base image, the resolved
dependency list and the package interpreter kind.  It is modelled as a
dockerfile with one `pip install` line per dependency, the shape a
dockerfile template gives such a list. -/
def renderDockerfile (image : String) (pypi_packs : List String)
    (pack_type : String) : String :=
  "FROM " ++ image ++ "\n# pack type: " ++ pack_type ++ "\n"
    ++ String.join (pypi_packs.map fun p => "RUN pip install " ++ p ++ "\n")

/-- The derived test image tag of `DockerBaseLinter._docker_image_create`
(`lint/linters/abstract_linters/docker_base_linter.py` lines 217-270,
refactor twin lines 209-261):
the Python f-string devtest + docker_image + dash + md5 hexdigest of the
utf-8 encoded dockerfile,
where `dockerfile` is the rendered template. -/
def dockerTestImageName (docker_image : String) (requirements : List String)
    (pack_type : String) : String :=
  "devtest" ++ docker_image ++ "-"
    ++ md5Hex (renderDockerfile docker_image requirements pack_type)

/-!  Theorems.  General-purpose lemmas come first, then one theorem per
claim (with its witness or counterexample). -/

theorem length_flatMap_byteToHex (l : List Nat) :
    (l.flatMap byteToHex).length = 2 * l.length := by
  induction l with
  | nil => rfl
  | cons b t ih =>
      simp [List.flatMap_cons, byteToHex, ih]
      omega

theorem md5Digest_length (msg : List Nat) : (md5Digest msg).length = 16 := by
  simp [md5Digest, toBytesLE4]

theorem md5Hex_data_length (s : String) : (md5Hex s).data.length = 32 := by
  show ((md5Digest (strUtf8 s)).flatMap byteToHex).length = 32
  rw [length_flatMap_byteToHex, md5Digest_length]

theorem md5Hex_length (s : String) : (md5Hex s).length = 32 :=
  md5Hex_data_length s

theorem string_data_append (a b : String) : (a ++ b).data = a.data ++ b.data :=
  rfl

theorem string_eq_of_data_eq {a b : String} (h : a.data = b.data) : a = b := by
  cases a; cases b; exact congrArg String.mk h

/-- C1: in `DockerBaseLinter.run`, when both `run_on_image` attempts for
a package image classify the result as RERUN, the retry loop records the
pair `(FAIL, output of the second attempt)` for the package/linter pair;
RERUN itself is never the state it hands on. -/
theorem docker_rerun_coerced_to_fail (attempt : Nat → LinterResult × String)
    (o0 o1 : String) (h0 : attempt 0 = (LinterResult.RERUN, o0))
    (h1 : attempt 1 = (LinterResult.RERUN, o1)) :
    dockerRunLoop attempt = (LinterResult.FAIL, o1) := by
  simp [dockerRunLoop, dockerRunTrial, h0, h1]

/-- C1 witness: a stub that returns RERUN with a distinct output on each
of the two attempts surfaces as FAIL with the output of the second. -/
theorem docker_rerun_coerced_to_fail_witness :
    (fun t => (LinterResult.RERUN,
        if t = 0 then "first try output" else "second try output")) 0
      = (LinterResult.RERUN, "first try output")
    ∧ dockerRunLoop (fun t => (LinterResult.RERUN,
        if t = 0 then "first try output" else "second try output"))
      = (LinterResult.FAIL, "second try output") :=
  ⟨rfl, docker_rerun_coerced_to_fail _ "first try output" "second try output"
    rfl rfl⟩

/-- C5: `BaseLinter.run` classifies FAIL exactly when the exit code is
nonzero or stderr is non-empty, SUCCESS otherwise; on FAIL the retained
output is stderr when non-empty, else stdout. -/
theorem base_linter_fail_iff (stdout stderr : String) (exit_code : Int) :
    ((baseLinterRunClassify stdout stderr exit_code).1 = LinterResult.FAIL
      ↔ (exit_code ≠ 0 ∨ stderr ≠ "")) ∧
    (¬(exit_code ≠ 0 ∨ stderr ≠ "") →
      baseLinterRunClassify stdout stderr exit_code = (LinterResult.SUCCESS, "")) ∧
    ((baseLinterRunClassify stdout stderr exit_code).1 = LinterResult.FAIL →
      (baseLinterRunClassify stdout stderr exit_code).2
        = if stderr ≠ "" then stderr else stdout) := by
  by_cases hs : stderr = "" <;> by_cases hc : exit_code = 0 <;>
    simp [baseLinterRunClassify, hs, hc]

/-- C5 witness: exit code 2 with empty stderr is a FAIL retaining
stdout. -/
theorem base_linter_fail_iff_witness :
    ((2 : Int) ≠ 0 ∨ ("" : String) ≠ "")
    ∧ (baseLinterRunClassify "E501 line too long" "" 2).1 = LinterResult.FAIL :=
  ⟨Or.inl (by decide),
   (base_linter_fail_iff "E501 line too long" "" 2).1.mpr (Or.inl (by decide))⟩

/-- C9: the disable flag stored by `XSOARLinter.__init__` is
`lint_flags.disable_flake8`, so `should_run` is false whenever flake8 is
disabled, and `disable_xsoar_linter` has no effect on it. -/
theorem xsoar_disable_wiring (lint_flags : LintFlags)
    (globalFacts : LintGlobalFactsModel) (script_type : String) :
    (lint_flags.disable_flake8 = true →
      xsoarShouldRun lint_flags globalFacts script_type = false) ∧
    (∀ b : Bool,
      xsoarShouldRun { lint_flags with disable_xsoar_linter := b }
          globalFacts script_type
        = xsoarShouldRun lint_flags globalFacts script_type) := by
  constructor
  · intro h
    simp [xsoarShouldRun, xsoarLinterDisableFlag, h]
  · intro b
    rfl

/-- C9 witness: with flake8 disabled (and the xsoar-linter flag left
enabled) the XSOAR linter does not run, even on a python package with
lint files. -/
theorem xsoar_disable_wiring_witness :
    (LintFlags.mk true false false false false false false false false
        false).disable_flake8 = true
    ∧ xsoarShouldRun
        (LintFlags.mk true false false false false false false false false
          false)
        (LintGlobalFactsModel.mk (some "/content") ["demistomock.py"])
        "python" = false :=
  ⟨rfl,
   (xsoar_disable_wiring
      (LintFlags.mk true false false false false false false false false
        false)
      (LintGlobalFactsModel.mk (some "/content") ["demistomock.py"])
      "python").1 rfl⟩

/-- C10: the image-creation failure branch of `DockerBaseLinter.run`
indexes `FAILED_IMAGE_CREATIONS` directly, so a package without a
pre-existing entry raises `KeyError` instead of appending a
`FailedImageCreation` record. -/
theorem failed_image_creation_keyerror
    (m : List (String × List FailedImageCreation))
    (package_name test_image errors : String)
    (h : m.lookup package_name = none) :
    recordFailedImageCreation m package_name test_image errors
      = Except.error DictError.keyError := by
  simp [recordFailedImageCreation, h]

/-- C10 witness: the very first image-creation failure (empty map)
raises `KeyError`. -/
theorem failed_image_creation_keyerror_witness :
    ([] : List (String × List FailedImageCreation)).lookup "HelloWorld" = none
    ∧ recordFailedImageCreation [] "HelloWorld" "demisto/python3:3.10"
        "build error" = Except.error DictError.keyError :=
  ⟨rfl, failed_image_creation_keyerror [] "HelloWorld" "demisto/python3:3.10"
    "build error" rfl⟩

/-- C2: when change-filtering mode or all-packages mode is requested and
no enclosing content repository is found, `LintManager.__init__` raises
`DemistoException` and the package resolution step never runs. -/
theorem lint_manager_fail_fast (inputDirs : List String)
    (gitOnly allPacks : Bool) (globalFacts : LintGlobalFactsModel)
    (getPackages : Option String → List String)
    (hrepo : globalFacts.content_repo = none)
    (hmode : gitOnly = true ∨ allPacks = true) :
    (lintManagerInit inputDirs gitOnly allPacks globalFacts getPackages).1
      = Except.error
        "Could not find content repository and -a or -g have been supplied."
    ∧ InitStep.getPackages ∉
        (lintManagerInit inputDirs gitOnly allPacks globalFacts getPackages).2 := by
  rcases hmode with h | h <;> subst h <;>
    simp [lintManagerInit, hrepo]

/-- C2 witness: a run requesting change-filtering with no repository
found fails fast without resolving packages. -/
theorem lint_manager_fail_fast_witness :
    (LintGlobalFactsModel.mk none []).content_repo = none
    ∧ (lintManagerInit [] true false (LintGlobalFactsModel.mk none [])
        (fun _ => ["HelloWorld"])).1
      = Except.error
        "Could not find content repository and -a or -g have been supplied." :=
  ⟨rfl,
   (lint_manager_fail_fast [] true false (LintGlobalFactsModel.mk none [])
      (fun _ => ["HelloWorld"]) rfl (Or.inl rfl)).1⟩

/-- C3 counterexample: a coverage database whose single `file` row does
not have `id = 1` is left unchanged - the code updates `WHERE id = 1`,
not the single existing row, so the row keeps its container-internal
path instead of the supplied absolute path. -/
theorem coverage_editor_counterexample :
    coverage_report_editor [(2, "/devwork/HelloWorld.py")]
        "/content/Packs/HelloWorld/HelloWorld.py"
      = some [(2, "/devwork/HelloWorld.py")]
    ∧ ("/devwork/HelloWorld.py" : String)
        ≠ "/content/Packs/HelloWorld/HelloWorld.py" := by
  constructor
  · rfl
  · decide

/-- C3 amended: with exactly one row the coverage file survives and a
row with `id = 1` (and only such a row) gets its path replaced by the
supplied absolute path; with zero or more than one rows no row is
updated and the file is removed. -/
theorem coverage_editor_amended (db : List (Nat × String)) (path : String) :
    (db.length = 1 →
      ∃ db', coverage_report_editor db path = some db'
        ∧ db'.length = db.length
        ∧ (∀ i p, (i, p) ∈ db → i = 1 → (i, path) ∈ db')
        ∧ (∀ i p, (i, p) ∈ db → i ≠ 1 → (i, p) ∈ db'))
    ∧ (db.length ≠ 1 → coverage_report_editor db path = none) := by
  constructor
  · intro h1
    refine ⟨db.map fun row => if row.1 = 1 then (row.1, path) else row,
      ?_, by simp, ?_, ?_⟩
    · simp [coverage_report_editor, h1]
    · intro i p hmem hi
      subst hi
      have := List.mem_map_of_mem
        (fun row : Nat × String => if row.1 = 1 then (row.1, path) else row) hmem
      simpa using this
    · intro i p hmem hi
      have := List.mem_map_of_mem
        (fun row : Nat × String => if row.1 = 1 then (row.1, path) else row) hmem
      simpa [hi] using this
  · intro h1
    simp [coverage_report_editor, h1]

/-- C3 amended witness: a two-row database is removed, and a singleton
database with `id = 1` is rewritten in place. -/
theorem coverage_editor_amended_witness :
    ([((2 : Nat), "/a.py"), (3, "/b.py")] : List (Nat × String)).length ≠ 1
    ∧ coverage_report_editor [((2 : Nat), "/a.py"), (3, "/b.py")]
        "/content/a.py" = none :=
  ⟨by decide,
   (coverage_editor_amended [((2 : Nat), "/a.py"), (3, "/b.py")]
      "/content/a.py").2 (by decide)⟩

/-- Monotonicity of the per-checker message union under checker-set
inclusion. -/
theorem messageEnable_mono (msgMap : String → List String)
    {l1 l2 : List String} (h : l1 ⊆ l2) :
    messageEnable msgMap l1 ⊆ messageEnable msgMap l2 := by
  intro x hx
  simp only [messageEnable, List.mem_flatMap] at hx ⊢
  obtain ⟨a, ha, hfa⟩ := hx
  exact ⟨a, h ha, hfa⟩

/-- C6: along the consecutive support tiers base, community, partner,
certified partner, xsoar, the enabled checker plugins of the lower tier
are a subset of those of the higher tier, and therefore so are the
enabled rule message identifiers, whatever the per-checker message
tables are. -/
theorem xsoar_tiers_monotone (pair : String × String)
    (hmem : pair ∈ consecutiveSupportTiers) :
    checkersOfSupportLevel pair.1 ⊆ checkersOfSupportLevel pair.2
    ∧ ∀ msgMap : String → List String,
        messageEnable msgMap (checkersOfSupportLevel pair.1)
          ⊆ messageEnable msgMap (checkersOfSupportLevel pair.2) := by
  have hcases : pair = ("base", "community") ∨ pair = ("community", "partner")
      ∨ pair = ("partner", "certified partner")
      ∨ pair = ("certified partner", "xsoar") := by
    simpa [consecutiveSupportTiers] using hmem
  have hsub : checkersOfSupportLevel pair.1 ⊆ checkersOfSupportLevel pair.2 := by
    rcases hcases with h | h | h | h <;> subst h <;> decide
  exact ⟨hsub, fun msgMap => messageEnable_mono msgMap hsub⟩

/-- C6 witness: the base tier is contained in the community tier; in
particular the base checker stays enabled at community level. -/
theorem xsoar_tiers_monotone_witness :
    (("base", "community") ∈ consecutiveSupportTiers)
    ∧ "base_checker" ∈ checkersOfSupportLevel "community" :=
  ⟨by decide,
   (xsoar_tiers_monotone ("base", "community") (by decide)).1
     (show "base_checker" ∈ checkersOfSupportLevel "base" by decide)⟩

theorem except_bind_error {α β ε : Type} (e : ε) (f : α → Except ε β) :
    (Except.error e >>= f) = Except.error e := rfl

theorem except_bind_ok {α β ε : Type} (a : α) (f : α → Except ε β) :
    (Except.ok a >>= f) = f a := rfl

theorem cleanup_no_plugin (plugins l : List String) {p : String}
    (hp : p ∈ plugins) : p ∉ cleanupPluginFiles plugins l := by
  intro hmem
  rw [cleanupPluginFiles, List.mem_filter] at hmem
  have h2 : ¬p ∈ plugins := by simpa using hmem.2
  exact h2 hp

theorem cleanup_filter_contains (plugins l : List String) :
    (cleanupPluginFiles plugins l).filter (fun e => plugins.contains e)
      = [] := by
  rw [List.filter_eq_nil_iff]
  intro a ha hcon
  rw [cleanupPluginFiles, List.mem_filter] at ha
  have h2 : ¬a ∈ plugins := by simpa using ha.2
  exact h2 (by simpa using hcon)

/-- C7 counterexample: when the package directory already holds an entry
with the name of a plugin file, the staging raises `FileExistsError` and
the cleanup deletes the pre-existing entry, so the set of plugin-file
entries of the package directory after the run differs from the one
before it. -/
theorem pylint_plugin_counterexample :
    (pylintPluginScope ["base_checker.py"] (fun s => (true, s))
        ["base_checker.py"]).2.filter
        (fun e => List.contains ["base_checker.py"] e)
      ≠ (["base_checker.py"] : List String).filter
        (fun e => List.contains ["base_checker.py"] e) := by
  decide

/-- C7 amended: every plugin file is absent from the package directory
after the scope on every exit path (including a failing staging step or
a body that raises); and, provided the package directory initially holds
no entry named like a plugin file, the set of plugin-file entries of the
package directory is the same (empty) after the run as before it,
whatever the body does. -/
theorem pylint_plugin_amended (plugins fs : List String)
    (body : List String → Bool × List String) :
    (∀ p ∈ plugins, p ∉ (pylintPluginScope plugins body fs).2)
    ∧ ((∀ p ∈ plugins, p ∉ fs) →
        (pylintPluginScope plugins body fs).2.filter
            (fun e => plugins.contains e)
          = fs.filter (fun e => plugins.contains e)) := by
  have hshape : ∃ l, (pylintPluginScope plugins body fs).2
      = cleanupPluginFiles plugins l := by
    unfold pylintPluginScope
    by_cases h : (stagePluginFiles plugins fs).1 <;> simp [h]
  obtain ⟨l, hl⟩ := hshape
  constructor
  · intro p hp
    rw [hl]
    exact cleanup_no_plugin plugins l hp
  · intro hpre
    rw [hl, cleanup_filter_contains]
    symm
    rw [List.filter_eq_nil_iff]
    intro a ha hcon
    have h2 : a ∈ plugins := by simpa using hcon
    exact hpre a h2 ha

/-- C7 amended witness: staging into a clean package directory leaves
the (empty) set of plugin-file entries unchanged. -/
theorem pylint_plugin_amended_witness :
    (∀ p ∈ (["base_checker.py"] : List String), p ∉ (["HelloWorld.py"] : List String))
    ∧ (pylintPluginScope ["base_checker.py"] (fun s => (true, s))
          ["HelloWorld.py"]).2.filter
          (fun e => List.contains ["base_checker.py"] e)
        = (["HelloWorld.py"] : List String).filter
          (fun e => List.contains ["base_checker.py"] e) :=
  ⟨by decide,
   (pylint_plugin_amended ["base_checker.py"] ["HelloWorld.py"]
      (fun s => (true, s))).2 (by decide)⟩

theorem classifyLine_single_char_raises (line : String)
    (h : line = "W" ∨ line = "E") :
    classifyLine line = Except.error SplitError.indexError := by
  rcases h with h | h <;> subst h <;> rfl

theorem splitLines_error_of_mem (lines : List String) (line : String)
    (hmem : line ∈ lines)
    (herr : classifyLine line = Except.error SplitError.indexError) :
    splitLines lines = Except.error SplitError.indexError := by
  induction lines with
  | nil => cases hmem
  | cons m rest ih =>
      rcases List.mem_cons.mp hmem with h | h
      · subst h
        simp [splitLines, herr, except_bind_error]
      · cases hc : classifyLine m with
        | error e =>
            cases e
            simp [splitLines, hc, except_bind_error]
        | ok c =>
            simp [splitLines, hc, ih h, except_bind_ok, except_bind_error]

/-- C8: `split_warnings_errors` is not total: any output containing a
line that is exactly the single character W or exactly the single
character E makes it raise `IndexError` (the `msg[1]` read) instead of
returning the three message lists. -/
theorem split_single_char_line_raises (output line : String)
    (hmem : line ∈ pySplitChar '\n' output)
    (hline : line = "W" ∨ line = "E") :
    split_warnings_errors output = Except.error SplitError.indexError := by
  unfold split_warnings_errors
  exact splitLines_error_of_mem _ line hmem
    (classifyLine_single_char_raises line hline)

/-- C8 witness: a three-line output whose middle line is a bare W
raises `IndexError`. -/
theorem split_single_char_line_raises_witness :
    "W" ∈ pySplitChar '\n' "first line\nW\nE501 line too long"
    ∧ split_warnings_errors "first line\nW\nE501 line too long"
        = Except.error SplitError.indexError :=
  ⟨by decide,
   split_single_char_line_raises "first line\nW\nE501 line too long" "W"
     (by decide) (Or.inl rfl)⟩

/-- C4 counterexample: the derived tag is not injective in the
dependency list: a dependency entry carrying an embedded newline that
mimics a rendered install line produces the same rendered dockerfile as
two separate entries, hence the same md5 digest and the same tag, so
changing the dependency-list input does not always change the tag. -/
theorem docker_tag_counterexample :
    (["requests", "urllib3"] : List String)
        ≠ ["requests\nRUN pip install urllib3"]
    ∧ dockerTestImageName "demisto/python3" ["requests", "urllib3"] "python"
        = dockerTestImageName "demisto/python3"
          ["requests\nRUN pip install urllib3"] "python" := by
  refine ⟨by decide, ?_⟩
  have h : renderDockerfile "demisto/python3" ["requests", "urllib3"] "python"
      = renderDockerfile "demisto/python3"
        ["requests\nRUN pip install urllib3"] "python" := by decide
  unfold dockerTestImageName
  rw [h]

/-- C4 amended: the derived tag is the pure function
`devtest + image + - + md5 hex of the rendered dockerfile` of the base
image, the dependency list and the interpreter kind (so identical inputs
always give byte-identical tags); changing the base image always changes
the tag; and at a fixed base image, changing the dependency list or the
interpreter kind changes the tag exactly when it changes the md5 digest
of the rendered dockerfile (which the counterexample shows need not
happen). -/
theorem docker_tag_amended :
    (∀ (img : String) (reqs : List String) (pt : String),
      dockerTestImageName img reqs pt
        = "devtest" ++ img ++ "-" ++ md5Hex (renderDockerfile img reqs pt))
    ∧ (∀ (img1 img2 : String) (reqs : List String) (pt : String),
        img1 ≠ img2 →
        dockerTestImageName img1 reqs pt ≠ dockerTestImageName img2 reqs pt)
    ∧ (∀ (img : String) (r1 r2 : List String) (p1 p2 : String),
        dockerTestImageName img r1 p1 = dockerTestImageName img r2 p2
          ↔ md5Hex (renderDockerfile img r1 p1)
              = md5Hex (renderDockerfile img r2 p2)) := by
  refine ⟨fun _ _ _ => rfl, ?_, ?_⟩
  · intro img1 img2 reqs pt hne heq
    have hd := congrArg String.data heq
    simp only [dockerTestImageName, string_data_append, List.append_assoc] at hd
    have hd2 := List.append_cancel_left hd
    have hlen : ("-".data ++ (md5Hex (renderDockerfile img1 reqs pt)).data).length
        = ("-".data ++ (md5Hex (renderDockerfile img2 reqs pt)).data).length := by
      simp [md5Hex_data_length, md5Hex_length]
    have himg := (List.append_inj' hd2 hlen).1
    exact hne (string_eq_of_data_eq himg)
  · intro img r1 r2 p1 p2
    constructor
    · intro heq
      have hd := congrArg String.data heq
      simp only [dockerTestImageName, string_data_append, List.append_assoc] at hd
      have hd2 := List.append_cancel_left (List.append_cancel_left hd)
      have hd3 := List.append_cancel_left hd2
      exact string_eq_of_data_eq hd3
    · intro h
      unfold dockerTestImageName
      rw [h]

/-- C4 amended witness: two base images of different length yield
different tags for the same dependency list and interpreter kind. -/
theorem docker_tag_amended_witness :
    ("demisto/python3:3.10" : String) ≠ "demisto/python2"
    ∧ dockerTestImageName "demisto/python3:3.10" ["pytest"] "python"
        ≠ dockerTestImageName "demisto/python2" ["pytest"] "python" :=
  ⟨by decide,
   docker_tag_amended.2.1 "demisto/python3:3.10" "demisto/python2" ["pytest"]
     "python" (by decide)⟩
